import Mathlib

/-!
Verification development for the stc-voice-api backend.

This file gives a shallow embedding, in Lean 4, of the authentication and
asynchronous-job subsystems of the repository, and proves or refutes the
frozen specification claims about them.  Each definition is translated from
a named source location:

* `core/auth/cookie_jwt.py` — `CookieJWTAuthentication` (HTTP cookie/header
  JWT authentication with CSRF enforcement), together with the behaviour of
  its superclass `rest_framework_simplejwt.authentication.JWTAuthentication`
  (header parsing, token validation, user resolution), which the class
  invokes via `super().authenticate`, `self.get_validated_token` and
  `self.get_user`.
* `app/ws_jwt_auth.py` — `CookieJWTAuthMiddleware` (WebSocket handshake
  authentication).
* `user/serializers.py` / `user/views.py` — cookie-based token refresh
  (rotation with blacklist) and the cookie attributes set on login/refresh.
* `deepfake/tasks.py` / `deepfake/views.py` — the detect-job Celery worker,
  its autoretry configuration, and the job detail endpoint.
* `tts/resemble_client.py` — the JSON response handling of the remote
  gateway (`_parse_json_or_raise`).
* `voices/views.py` — the AsyncResult-based job status endpoints.

JWT signature verification is abstracted as a `decode` function from raw
token strings to optional claim sets (a `none` result models any token the
backend rejects at decode time); claim checks that the Python code performs
explicitly (token type, expiry, blacklist membership, user lookup) are
modelled explicitly.
-/

namespace STCVoice

/-- Decidable equality for `Except`, so closed runs of the embedded
functions can be settled by `decide`. -/
instance {ε α : Type} [DecidableEq ε] [DecidableEq α] : DecidableEq (Except ε α) := fun x y =>
  match x, y with
  | .ok a, .ok b =>
      if h : a = b then .isTrue (by rw [h]) else .isFalse (fun hc => h (Except.ok.inj hc))
  | .error a, .error b =>
      if h : a = b then .isTrue (by rw [h]) else .isFalse (fun hc => h (Except.error.inj hc))
  | .ok _, .error _ => .isFalse (fun hc => Except.noConfusion hc)
  | .error _, .ok _ => .isFalse (fun hc => Except.noConfusion hc)

/-! ## Python string primitives

The Python string operations the middleware uses are re-implemented here by
structural recursion over the character list (core `String.splitOn`,
`String.trim`, `String.toLower` and `String.startsWith` are defined by
well-founded recursion over byte positions and do not reduce inside the
kernel).  Whitespace is modelled as the space character, which covers HTTP
header material. -/

/-- Python `str.strip()`: drop leading and trailing whitespace. -/
def py_strip (s : String) : String :=
  String.mk (((s.data.dropWhile (· = ' ')).reverse.dropWhile (· = ' ')).reverse)

/-- Python `str.lower()`. -/
def py_lower (s : String) : String :=
  String.mk (s.data.map Char.toLower)

/-- Accumulator-based splitting on whitespace runs, dropping empty parts. -/
def py_split_ws_aux : List Char → List Char → List String
  | [], acc => if acc.isEmpty then [] else [String.mk acc.reverse]
  | c :: cs, acc =>
      if c = ' ' then
        if acc.isEmpty then py_split_ws_aux cs []
        else String.mk acc.reverse :: py_split_ws_aux cs []
      else py_split_ws_aux cs (c :: acc)

/-- Helper for `py_split_once_space`: split at the first space. -/
def py_split_once_aux : List Char → List Char → List String
  | [], acc => [String.mk acc.reverse]
  | c :: cs, acc =>
      if c = ' ' then [String.mk acc.reverse, String.mk cs]
      else py_split_once_aux cs (c :: acc)

/-! ## Token claims and the JWT environment -/

/-- Claim set carried by a decoded JWT, per `SIMPLE_JWT` usage in the
repository: `user_id`, `exp`, `token_type`, `jti`.  `user_id` is optional
because `simplejwt` treats a missing claim as an error and
`ws_jwt_auth.py` checks `token.get("user_id")` for falsiness. -/
structure TokenClaims where
  user_id : Option Nat
  exp : Nat
  token_type : String
  jti : Nat
deriving Repr, DecidableEq

/-- Ambient authentication environment: the abstract JWT decoder (signature
check included — `none` means the raw string does not decode to a valid
signed token), the current time, and the user table as a list of
`(pk, is_active)` pairs. -/
structure JwtEnv where
  decode : String → Option TokenClaims
  now : Nat
  users : List (Nat × Bool)

/-- Exceptions that abort the DRF authentication pipeline:
`InvalidToken` / `AuthenticationFailed` surface as HTTP 401,
`PermissionDenied` as HTTP 403. -/
inductive AuthAbort where
  | invalid_token (detail : String)
  | authentication_failed (detail : String)
  | permission_denied (detail : String)
deriving Repr, DecidableEq

/-- `JWTAuthentication.get_validated_token` (superclass of
`CookieJWTAuthentication`): tries `AccessToken(raw)`, which decodes the
token and verifies token type and expiry; any failure raises
`InvalidToken`.  Expiry check per `simplejwt.check_exp`: the token is
valid only while `now < exp`. -/
def get_validated_token (env : JwtEnv) (raw : String) : Except AuthAbort TokenClaims :=
  match env.decode raw with
  | none => .error (.invalid_token "Given token not valid for any token type")
  | some c =>
      if c.token_type = "access" then
        if env.now < c.exp then .ok c
        else .error (.invalid_token "Given token not valid for any token type")
      else .error (.invalid_token "Given token not valid for any token type")

/-- `JWTAuthentication.get_user`: reads the `user_id` claim (raising
`InvalidToken` when absent), resolves it against the user table (raising
`AuthenticationFailed` when absent), and rejects inactive users. -/
def get_user (env : JwtEnv) (c : TokenClaims) : Except AuthAbort Nat :=
  match c.user_id with
  | none => .error (.invalid_token "Token contained no recognizable user identification")
  | some uid =>
      match env.users.lookup uid with
      | none => .error (.authentication_failed "User not found")
      | some is_active =>
          if is_active then .ok uid
          else .error (.authentication_failed "User is inactive")

/-! ## HTTP requests and `CookieJWTAuthentication` (`core/auth/cookie_jwt.py`) -/

/-- Outcome of the Django `CsrfViewMiddleware.process_view` call for a request:
`pass` when the double-submit check would succeed, `reject reason` when it
would fail (e.g. the CSRF cookie or header token is missing). -/
inductive CsrfCheck where
  | pass
  | reject (reason : String)
deriving Repr, DecidableEq

/-- An inbound HTTP request as seen by the authenticator: method string,
cookie jar (`request.COOKIES`), optional `Authorization` header value, and
what the Django CSRF middleware would answer for it. -/
structure HttpRequest where
  method : String
  cookies : List (String × String)
  authorization : Option String
  csrf : CsrfCheck
deriving Repr, DecidableEq

/-- The default access-token cookie name
(`settings.JWT_ACCESS_COOKIE_NAME`, `app/settings.py:333`). -/
def jwt_access_cookie_name : String := "access_token"

/-- The method tuple that `CookieJWTAuthentication._enforce_csrf`
(`cookie_jwt.py:31`) returns early for, verbatim from the source.  Note it
contains POST, PUT, PATCH and DELETE. -/
def csrf_exempt_methods : List String :=
  ["GET", "HEAD", "OPTIONS", "TRACE", "POST", "PUT", "PATCH", "DELETE"]

/-- `CookieJWTAuthentication._enforce_csrf` (`cookie_jwt.py:30-37`):
return early when the request method is in the tuple above; otherwise run
Django CSRF validation and raise `PermissionDenied` on a failure reason. -/
def enforce_csrf (req : HttpRequest) : Except AuthAbort Unit :=
  if req.method ∈ csrf_exempt_methods then .ok ()
  else
    match req.csrf with
    | .pass => .ok ()
    | .reject reason => .error (.permission_denied ("CSRF Failed: " ++ reason))

/-- The access cookie value used by `authenticate` (`cookie_jwt.py:20-23`):
`request.COOKIES.get(name)` followed by the Python truthiness test
`if raw_token:`, so an empty cookie value counts as absent. -/
def cookie_raw_token (req : HttpRequest) : Option String :=
  match req.cookies.lookup jwt_access_cookie_name with
  | some v => if v = "" then none else some v
  | none => none

/-- Python `str.split()` with no arguments: split on whitespace runs,
dropping empty parts. -/
def py_split_whitespace (s : String) : List String :=
  py_split_ws_aux s.data []

/-- `JWTAuthentication.get_raw_token` (simplejwt): split the header value;
an empty header or a non-Bearer scheme yields no credential, while a
Bearer header that does not have exactly two space-delimited parts raises
`AuthenticationFailed`. -/
def get_raw_token (header : String) : Except AuthAbort (Option String) :=
  match py_split_whitespace header with
  | [] => .ok none
  | p :: rest =>
      if p = "Bearer" then
        match rest with
        | [t] => .ok (some t)
        | _ => .error (.authentication_failed
            "Authorization header must contain two space-delimited values")
      else .ok none

/-- `JWTAuthentication.authenticate` (simplejwt), the `super().authenticate`
fallback of `CookieJWTAuthentication` (`cookie_jwt.py:28`): read the
`Authorization` header, extract the raw Bearer token, validate it and
resolve the user.  Returns `ok none` when no credential is found. -/
def jwt_header_authenticate (env : JwtEnv) (req : HttpRequest) :
    Except AuthAbort (Option (Nat × TokenClaims)) :=
  match req.authorization with
  | none => .ok none
  | some header =>
      match get_raw_token header with
      | .error e => .error e
      | .ok none => .ok none
      | .ok (some raw) =>
          match get_validated_token env raw with
          | .error e => .error e
          | .ok c =>
              match get_user env c with
              | .error e => .error e
              | .ok uid => .ok (some (uid, c))

/-- `CookieJWTAuthentication.authenticate` (`cookie_jwt.py:19-28`): if the
access cookie holds a (truthy) token, enforce CSRF, validate the cookie
token and resolve the user; otherwise fall back to header authentication. -/
def authenticate (env : JwtEnv) (req : HttpRequest) :
    Except AuthAbort (Option (Nat × TokenClaims)) :=
  match cookie_raw_token req with
  | some raw =>
      match enforce_csrf req with
      | .error e => .error e
      | .ok _ =>
          match get_validated_token env raw with
          | .error e => .error e
          | .ok c =>
              match get_user env c with
              | .error e => .error e
              | .ok uid => .ok (some (uid, c))
  | none => jwt_header_authenticate env req

/-! ## WebSocket handshake authentication (`app/ws_jwt_auth.py`) -/

/-- A WebSocket handshake scope as the middleware sees it: the parsed
cookie header (`SimpleCookie` result; empty when the cookie header is
absent or unparseable — `_get_cookie_value` catches every exception and
returns `None`) and the raw `authorization` header value. -/
structure WsScope where
  cookies : List (String × String)
  authorization : Option String
deriving Repr, DecidableEq

/-- Channel configuration: `settings.WS_ALLOW_AUTH_HEADER`
(`app/settings.py:331`, default `False`). -/
structure WsConfig where
  ws_allow_auth_header : Bool
deriving Repr, DecidableEq

/-- Python truthiness on an optional string: an absent or empty string is
falsy. -/
def opt_nonempty (s : Option String) : Option String :=
  match s with
  | some v => if v = "" then none else some v
  | none => none

/-- `_get_cookie_value` (`ws_jwt_auth.py:29-40`): look the named morsel up
in the parsed cookie header; missing cookie header or missing morsel gives
`None` (parse failures are already folded into an empty jar). -/
def ws_get_cookie_value (scope : WsScope) (name : String) : Option String :=
  scope.cookies.lookup name

/-- Python `s.split(" ", 1)`: split at the first space only. -/
def py_split_once_space (s : String) : List String :=
  py_split_once_aux s.data []

/-- `_get_bearer_token` (`ws_jwt_auth.py:43-54`): strip the header value,
require a case-insensitive `bearer ` prefix, and return the stripped
remainder after the first space; anything else yields `None` rather than
an error. -/
def ws_get_bearer_token (scope : WsScope) : Option String :=
  match scope.authorization with
  | none => none
  | some raw =>
      let val := py_strip raw
      if ("bearer ".data).isPrefixOf (py_lower val).data then
        match py_split_once_space val with
        | [_, t] => some (py_strip t)
        | _ => none
      else none

/-- Credential extraction of `CookieJWTAuthMiddleware.__call__`
(`ws_jwt_auth.py:78-83`): prefer the cookie token; only when it is absent
(or falsy) and `WS_ALLOW_AUTH_HEADER` is set, fall back to the bearer
header.  Returns the raw token with its `token_source` tag. -/
def ws_extract (cfg : WsConfig) (scope : WsScope) : Option String × Option String :=
  let raw := opt_nonempty (ws_get_cookie_value scope jwt_access_cookie_name)
  let src : Option String := if raw.isSome then some "cookie" else none
  if raw.isNone && cfg.ws_allow_auth_header then
    let raw2 := opt_nonempty (ws_get_bearer_token scope)
    (raw2, if raw2.isSome then some "authorization" else none)
  else (raw, src)

/-- `AccessToken(raw_token)` as used at `ws_jwt_auth.py:92`: decode plus
token-type and expiry verification; `none` models a raised `TokenError`. -/
def ws_access_token (env : JwtEnv) (raw : String) : Option TokenClaims :=
  match env.decode raw with
  | none => none
  | some c =>
      if c.token_type = "access" then
        if env.now < c.exp then some c else none
      else none

/-- The identity the middleware stores in the scope. -/
inductive WsIdentity where
  | anonymous
  | user (uid : Nat)
deriving Repr, DecidableEq

/-- The scope fields written by the middleware: `scope["user"]`,
`scope["jwt_error"]`, `scope["jwt_source"]`. -/
structure WsAuthScope where
  user : WsIdentity
  jwt_error : Option String
  jwt_source : Option String
deriving Repr, DecidableEq

/-- `CookieJWTAuthMiddleware.__call__` (`ws_jwt_auth.py:72-127`): extract a
credential, verify it as an access token, check the `user_id` claim for
presence and truthiness, and resolve the user; every failure stores an
anonymous identity with a reason code instead of aborting the handshake.
`_get_user_by_id` (`ws_jwt_auth.py:57-62`) returns `AnonymousUser` on any
lookup failure, and the subsequent `is_authenticated` test is what turns
that into `user_not_found`; a found row passes it whether or not the user
is active. -/
def ws_authenticate (cfg : WsConfig) (env : JwtEnv) (scope : WsScope) : WsAuthScope :=
  match ws_extract cfg scope with
  | (none, _) => { user := .anonymous, jwt_error := some "missing_token", jwt_source := none }
  | (some raw, src) =>
      match ws_access_token env raw with
      | none => { user := .anonymous, jwt_error := some "invalid_or_expired", jwt_source := src }
      | some c =>
          match c.user_id with
          | none => { user := .anonymous, jwt_error := some "missing_user_id", jwt_source := src }
          | some uid =>
              if uid = 0 then
                { user := .anonymous, jwt_error := some "missing_user_id", jwt_source := src }
              else
                match env.users.lookup uid with
                | none =>
                    { user := .anonymous, jwt_error := some "user_not_found", jwt_source := src }
                | some _ => { user := .user uid, jwt_error := none, jwt_source := src }

/-! ## Detect-job records and the Celery worker (`deepfake/tasks.py`) -/

/-- `DeepfakeDetectJob.Status` (`core/models.py:96-100`). -/
inductive JobStatus where
  | queued
  | running
  | succeeded
  | failed
deriving Repr, DecidableEq

/-- The mutable fields of a `DeepfakeDetectJob` row that the worker touches
(`core/models.py:92-118`). -/
structure DetectJob where
  status : JobStatus
  celery_task_id : String
  remote_detect_uuid : String
  create_response : Option String
  error_message : String
deriving Repr, DecidableEq

/-- Outcome of one `resemble_detect_create(payload)` call as observed by the
worker: either a response (with the optional `item.uuid` inside it and an
opaque rendering of the response body), or a raised exception whose
`str(e)` is the given message. -/
inductive RemoteResult where
  | ok (item_uuid : Option String) (resp : String)
  | exc (msg : String)
deriving Repr, DecidableEq

/-- One execution of `create_detect_job_task` (`deepfake/tasks.py:14-46`)
on a loaded record: write `running` plus the task id, call the remote
gateway, then write either `succeeded` (storing `item.get("uuid") or ""`,
the full response, and clearing the error) or `failed` (storing `str(e)`)
and re-raise.  Returns the updated record, the pair of status writes this
execution performed, and whether the task raised. -/
def run_detect_task_once (task_id : String) (remote : RemoteResult) (job : DetectJob) :
    DetectJob × (JobStatus × JobStatus) × Bool :=
  let j1 := { job with status := JobStatus.running, celery_task_id := task_id }
  match remote with
  | .ok item_uuid resp =>
      ({ j1 with
          status := JobStatus.succeeded
          remote_detect_uuid := item_uuid.getD ""
          create_response := some resp
          error_message := "" },
       (JobStatus.running, JobStatus.succeeded), false)
  | .exc msg =>
      ({ j1 with status := JobStatus.failed, error_message := msg },
       (JobStatus.running, JobStatus.failed), true)

/-- The `@shared_task` decorator arguments of `create_detect_job_task`
(`deepfake/tasks.py:13`). -/
structure CeleryTaskConfig where
  autoretry_for_exception : Bool
  retry_backoff : Bool
  retry_jitter : Bool
  max_retries : Nat
deriving Repr, DecidableEq

/-- `@shared_task(bind=True, autoretry_for=(Exception,), retry_backoff=True,
retry_jitter=True, max_retries=3)` (`deepfake/tasks.py:13`). -/
def create_detect_job_task_config : CeleryTaskConfig :=
  { autoretry_for_exception := true
  , retry_backoff := true
  , retry_jitter := true
  , max_retries := 3 }

/-- Result of driving the task to quiescence: final record, number of
executions performed, and the status writes of every execution in order. -/
structure WorkerRun where
  final : DetectJob
  attempts : Nat
  writes : List (JobStatus × JobStatus)
deriving Repr, DecidableEq

/-- Celery autoretry driver: run one execution; when it raises and retries
remain (`fuel`), schedule the next execution, otherwise stop.  `tids n`
and `remote n` give the task id and remote outcome of the n-th execution. -/
def celery_autoretry (tids : Nat → String) (remote : Nat → RemoteResult) :
    Nat → Nat → DetectJob → List (JobStatus × JobStatus) → WorkerRun
  | 0, attempt, job, acc =>
      let r := run_detect_task_once (tids attempt) (remote attempt) job
      { final := r.1, attempts := attempt + 1, writes := acc ++ [r.2.1] }
  | fuel + 1, attempt, job, acc =>
      let r := run_detect_task_once (tids attempt) (remote attempt) job
      if r.2.2 then celery_autoretry tids remote fuel (attempt + 1) r.1 (acc ++ [r.2.1])
      else { final := r.1, attempts := attempt + 1, writes := acc ++ [r.2.1] }

/-- Full worker lifecycle for one queued job under the Celery
configuration: at most `max_retries` retries after the initial attempt. -/
def run_detect_job (cfg : CeleryTaskConfig) (tids : Nat → String)
    (remote : Nat → RemoteResult) (job : DetectJob) : WorkerRun :=
  celery_autoretry tids remote cfg.max_retries 0 job []

/-- The record as `DeepfakeJobsView.post` creates it
(`deepfake/views.py:100-106`): `status=queued`, everything else blank. -/
def new_detect_job : DetectJob :=
  { status := JobStatus.queued
  , celery_task_id := ""
  , remote_detect_uuid := ""
  , create_response := none
  , error_message := "" }

/-- Flatten per-execution status-write pairs into the observed sequence of
status values stored in the row. -/
def flat_status_writes (ws : List (JobStatus × JobStatus)) : List JobStatus :=
  ws.foldr (fun p acc => p.1 :: p.2 :: acc) []

/-- The sequence of status values a `DeepfakeDetectJob` row takes on, from
creation (`queued`, `deepfake/views.py:104`) through every worker
execution. -/
def job_status_trace (cfg : CeleryTaskConfig) (tids : Nat → String)
    (remote : Nat → RemoteResult) : List JobStatus :=
  JobStatus.queued :: flat_status_writes (run_detect_job cfg tids remote new_detect_job).writes

/-- Checker for the per-execution write shape: every execution writes
`running` followed by a terminal status. -/
def writes_forward_ok (ws : List (JobStatus × JobStatus)) : Bool :=
  ws.all (fun p =>
    p.1 == JobStatus.running && (p.2 == JobStatus.succeeded || p.2 == JobStatus.failed))

/-! ## Refresh-token rotation (`user/serializers.py:72-82` with
`rest_framework_simplejwt.serializers.TokenRefreshSerializer` and
`SIMPLE_JWT` from `app/settings.py:303-310`) -/

/-- The default refresh-token cookie name
(`settings.JWT_REFRESH_COOKIE_NAME`, `app/settings.py:334`). -/
def jwt_refresh_cookie_name : String := "refresh_token"

/-- `SIMPLE_JWT["ACCESS_TOKEN_LIFETIME"] = timedelta(days=5)` in seconds. -/
def access_token_lifetime_seconds : Nat := 5 * 24 * 60 * 60

/-- `SIMPLE_JWT["REFRESH_TOKEN_LIFETIME"] = timedelta(days=7)` in seconds. -/
def refresh_token_lifetime_seconds : Nat := 7 * 24 * 60 * 60

/-- Failures of the refresh endpoint: a DRF `ValidationError` when the
refresh cookie is absent, or a `TokenError` (surfaced as `InvalidToken`)
from token verification — in particular `Token is blacklisted`, the
`TokenRevoked` failure of the spec. -/
inductive RefreshFailure where
  | validation_error (detail : String)
  | token_error (detail : String)
deriving Repr, DecidableEq

/-- `CookieTokenRefreshSerializer.validate` (`user/serializers.py:76-82`)
followed by simplejwt `TokenRefreshSerializer.validate` with
`ROTATE_REFRESH_TOKENS` and `BLACKLIST_AFTER_ROTATION` enabled: read the
refresh cookie (ValidationError when absent), build `RefreshToken(raw)` —
decode, blacklist check, token-type and expiry verification —, then
blacklist the presented `jti` and mint a new access/refresh pair with a
fresh `jti`.  The blacklist read (in `RefreshToken.__init__`) and the
blacklist write (`refresh.blacklist()`) are distinct database operations
with no enclosing lock or transaction; this function models ONE call run
to completion in isolation (the serialized case), threading the blacklist
state explicitly. -/
def cookie_token_refresh (env : JwtEnv) (blacklist : List Nat)
    (cookies : List (String × String)) (fresh_jti : Nat) :
    List Nat × Except RefreshFailure (TokenClaims × TokenClaims) :=
  match opt_nonempty (cookies.lookup jwt_refresh_cookie_name) with
  | none => (blacklist, .error (.validation_error "Refresh cookie not found."))
  | some raw =>
      match env.decode raw with
      | none => (blacklist, .error (.token_error "Token is invalid or expired"))
      | some c =>
          if c.jti ∈ blacklist then (blacklist, .error (.token_error "Token is blacklisted"))
          else if c.token_type = "refresh" then
            if env.now < c.exp then
              (c.jti :: blacklist,
               .ok ({ user_id := c.user_id
                    , exp := env.now + access_token_lifetime_seconds
                    , token_type := "access"
                    , jti := fresh_jti + 1 },
                    { user_id := c.user_id
                    , exp := env.now + refresh_token_lifetime_seconds
                    , token_type := "refresh"
                    , jti := fresh_jti }))
            else (blacklist, .error (.token_error "Token is expired"))
          else (blacklist, .error (.token_error "Token has wrong type"))

/-- Progress of one in-flight rotate call, used to model two concurrent
refresh requests presenting the same token: `start` (about to run the
blacklist check of `RefreshToken.__init__`), `checked` (check passed, about
to run `refresh.blacklist()` and mint the pair), `succeeded`, `rejected`
(check failed with `Token is blacklisted`). -/
inductive RotPhase where
  | start
  | checked
  | succeeded
  | rejected
deriving Repr, DecidableEq

/-- Shared state of two concurrent rotate calls for the same refresh `jti`:
the blacklist table plus the progress of each request. -/
structure RaceState where
  blacklist : List Nat
  a : RotPhase
  b : RotPhase
deriving Repr, DecidableEq

/-- One atomic database step of a rotate call: from `start`, the blacklist
membership check (read only); from `checked`, the blacklist insert together
with issuing the new pair (`BlacklistedToken.objects.get_or_create` never
fails on a duplicate).  Terminal phases do nothing. -/
def rot_step (jti : Nat) (blacklist : List Nat) : RotPhase → List Nat × RotPhase
  | .start =>
      if jti ∈ blacklist then (blacklist, .rejected) else (blacklist, .checked)
  | .checked => (jti :: blacklist, .succeeded)
  | p => (blacklist, p)

/-- Interleave the two rotate calls: `true` steps request A, `false` steps
request B. -/
def race_step (jti : Nat) (s : RaceState) (pick_a : Bool) : RaceState :=
  if pick_a then
    let r := rot_step jti s.blacklist s.a
    { s with blacklist := r.1, a := r.2 }
  else
    let r := rot_step jti s.blacklist s.b
    { s with blacklist := r.1, b := r.2 }

/-- Run a schedule of interleaved steps from an empty blacklist with both
requests presenting the same refresh `jti`. -/
def race_run (jti : Nat) (sched : List Bool) : RaceState :=
  sched.foldl (race_step jti) { blacklist := [], a := .start, b := .start }

/-! ## Job detail endpoint (`deepfake/views.py:128-135`) -/

/-- The columns of a `DeepfakeDetectJob` row that the detail endpoint
filter and response shape depend on. -/
structure DetectJobRow where
  uuid : Nat
  user : Nat
  record : DetectJob
deriving Repr, DecidableEq

/-- Responses of `DeepfakeJobDetailView.get`. -/
inductive JobDetailResponse where
  | not_found (detail : String)
  | ok (item : DetectJobRow)
deriving Repr, DecidableEq

/-- `DeepfakeJobDetailView.get` (`deepfake/views.py:131-135`):
`DeepfakeDetectJob.objects.filter(uuid=uuid, user=request.user).first()`;
a missing row yields the 404 body `Job not found.`, a present row yields
the serialized item. -/
def job_detail_get (db : List DetectJobRow) (caller : Nat) (uuid : Nat) : JobDetailResponse :=
  match db.find? (fun j => j.uuid == uuid && j.user == caller) with
  | none => .not_found "Job not found."
  | some j => .ok j

/-! ## Remote gateway JSON handling (`tts/resemble_client.py:29-37`) -/

/-- A `requests.Response` as `_parse_json_or_raise` consumes it: the HTTP
status code, the raw body text, and the outcome of `r.json()` (`none`
models a raised JSON decode error; `some d` is the parsed document,
rendered opaquely as a string). -/
structure RResponse where
  status_code : Nat
  text : String
  json : Option String
deriving Repr, DecidableEq

/-- Errors raised by the gateway helpers: `requests.HTTPError` carrying the
response status and a body (either the parsed JSON document from the
explicit raise at `resemble_client.py:36`, or the raw body attached to the
error `raise_for_status` raises), and a JSON decode error re-raised when
the body is unparseable but the status is not an HTTP error. -/
inductive RequestsError where
  | http_error (status : Nat) (body : String)
  | json_decode_error
deriving Repr, DecidableEq

/-- `requests.Response.raise_for_status`: raises `HTTPError` exactly for
4xx and 5xx status codes. -/
def raise_for_status (r : RResponse) : Except RequestsError Unit :=
  if 400 ≤ r.status_code ∧ r.status_code < 600 then
    .error (.http_error r.status_code r.text)
  else .ok ()

/-- `_parse_json_or_raise` (`resemble_client.py:29-37`): try `r.json()`;
on a decode failure, `raise_for_status` then re-raise the decode error;
on success, raise `HTTPError` with the status and parsed body whenever
`status_code >= 400`, else return the parsed body.  `post_json`
(`resemble_client.py:39-50`) and `get_json` (`resemble_client.py:52-61`)
inline the identical logic. -/
def parse_json_or_raise (r : RResponse) : Except RequestsError String :=
  match r.json with
  | none =>
      match raise_for_status r with
      | .error e => .error e
      | .ok _ => .error .json_decode_error
  | some data =>
      if 400 ≤ r.status_code then .error (.http_error r.status_code data)
      else .ok data

/-! ## AsyncResult job status endpoints (`voices/views.py:189-201,317-332`) -/

/-- Celery task states, as `AsyncResult.status` reports them. -/
inductive CeleryState where
  | PENDING
  | STARTED
  | RETRY
  | SUCCESS
  | FAILURE
  | REVOKED
deriving Repr, DecidableEq

/-- The string constant behind each Celery state. -/
def celery_state_name : CeleryState → String
  | .PENDING => "PENDING"
  | .STARTED => "STARTED"
  | .RETRY => "RETRY"
  | .SUCCESS => "SUCCESS"
  | .FAILURE => "FAILURE"
  | .REVOKED => "REVOKED"

/-- Live scheduler state: the tasks known to the result backend, each with its
state and an opaque rendering of `res.result`. -/
structure CeleryBackend where
  tasks : List (String × CeleryState × String)
deriving Repr, DecidableEq

/-- `AsyncResult(job_id).status`: the state recorded by the backend; any task id
the backend does not know (for example after a worker restart wiped it) is
implied to be `PENDING`. -/
def async_result_state (be : CeleryBackend) (task_id : String) : CeleryState :=
  match be.tasks.find? (fun t => t.1 == task_id) with
  | some t => t.2.1
  | none => CeleryState.PENDING

/-- The rendering of `res.result` for a known task, empty otherwise. -/
def async_result_repr (be : CeleryBackend) (task_id : String) : String :=
  match be.tasks.find? (fun t => t.1 == task_id) with
  | some t => t.2.2
  | none => ""

/-- Response body shape of the status views. -/
structure StatusResponseBody where
  success : Bool
  status : String
  result : Option String
  error : Option String
deriving Repr, DecidableEq

/-- `VoiceDesignJobStatusView.get` (`voices/views.py:192-201`):
`res.successful()` (state `SUCCESS`) yields `completed` with the result;
`res.failed()` (state `FAILURE`) yields `failed` with the stringified
result; otherwise the response carries `res.status.lower()`.
`VoiceCloneJobStatusView.get` (`voices/views.py:323-332`) is identical. -/
def voice_design_job_status_get (be : CeleryBackend) (job_id : String) : StatusResponseBody :=
  let st := async_result_state be job_id
  if st = CeleryState.SUCCESS then
    { success := true, status := "completed"
    , result := some (async_result_repr be job_id), error := none }
  else if st = CeleryState.FAILURE then
    { success := false, status := "failed"
    , result := none, error := some (async_result_repr be job_id) }
  else
    { success := true, status := py_lower (celery_state_name st)
    , result := none, error := none }

/-! ## Access-token cookie attributes (`user/views.py`) -/

/-- The cookie-related settings read by `_cookie_kwargs`
(`app/settings.py:333-341`). -/
structure CookieSettings where
  jwt_cookie_secure : Bool
  jwt_cookie_samesite : String
  jwt_cookie_domain : Option String
  jwt_access_cookie_path : String
  jwt_refresh_cookie_path : String
deriving Repr, DecidableEq

/-- The keyword arguments `_cookie_kwargs` (`user/views.py:24-32`) passes
to `set_cookie`. -/
structure CookieKwargs where
  max_age : Option Nat
  httponly : Bool
  secure : Bool
  samesite : String
  domain : Option String
  path : String
deriving Repr, DecidableEq

/-- `_cookie_kwargs(max_age, path, httponly)` (`user/views.py:24-32`). -/
def cookie_kwargs (st : CookieSettings) (max_age : Option Nat) (path : String)
    (httponly : Bool) : CookieKwargs :=
  { max_age := max_age
  , httponly := httponly
  , secure := st.jwt_cookie_secure
  , samesite := st.jwt_cookie_samesite
  , domain := st.jwt_cookie_domain
  , path := path }

/-- The access-token cookie set by `CreateTokenView.post`
(`user/views.py:59-67`): `max_age=10 * 60`. -/
def login_access_cookie (st : CookieSettings) : CookieKwargs :=
  cookie_kwargs st (some (10 * 60)) st.jwt_access_cookie_path true

/-- The access-token cookie set by `RefreshView.post`
(`user/views.py:96-104`): `max_age=10 * 60`. -/
def refresh_access_cookie (st : CookieSettings) : CookieKwargs :=
  cookie_kwargs st (some (10 * 60)) st.jwt_access_cookie_path true

/-! ## Concrete demonstration inputs -/

/-- A concrete environment: `tok-alice` decodes to an unexpired access
token for user 1, who exists and is active; everything else fails to
decode. -/
def demo_env : JwtEnv :=
  { decode := fun s =>
      if s = "tok-alice" then
        some { user_id := some 1, exp := 1000, token_type := "access", jti := 11 }
      else none
  , now := 0
  , users := [(1, true)] }

/-- A state-changing request authenticated by the access-token cookie that
presents no CSRF double-submit token, so Django CSRF validation would
reject it. -/
def c1_request : HttpRequest :=
  { method := "POST"
  , cookies := [("access_token", "tok-alice")]
  , authorization := none
  , csrf := .reject "CSRF token missing or incorrect." }

/-- The identical state-changing request authenticated via the
`Authorization: Bearer` header only. -/
def c1_header_request : HttpRequest :=
  { method := "POST"
  , cookies := []
  , authorization := some "Bearer tok-alice"
  , csrf := .reject "CSRF token missing or incorrect." }

/-- A remote call that raises a transient error on every attempt, with the
message shape `post_json` produces (`resemble_client.py:49`). -/
def always_fail_remote : Nat → RemoteResult :=
  fun _ => .exc "Resemble error 500: server error"

/-! ## Claim theorems -/

/-- C1: the claim says a state-changing cookie-authenticated request
without a matching CSRF token must raise `PermissionDenied`.  The code
does not: `_enforce_csrf` returns early for every standard method because
POST, PUT, PATCH and DELETE are in its skip tuple (`cookie_jwt.py:31`), so
the request below — POST, cookie token, CSRF validation failing — is
authenticated successfully.  The header-only variant is likewise accepted
without CSRF, which is the one part of the claim the code does satisfy.
This contradicts the class docstring (`cookie_jwt.py:16`: enforce CSRF for
unsafe methods when the token came from a cookie), so the code, not the
claim, is at fault. -/
theorem c1_csrf_never_enforced_on_standard_methods :
    authenticate demo_env c1_request =
      .ok (some (1, { user_id := some 1, exp := 1000, token_type := "access", jti := 11 })) ∧
    enforce_csrf c1_request = .ok () ∧
    "POST" ∈ csrf_exempt_methods ∧
    authenticate demo_env c1_header_request =
      .ok (some (1, { user_id := some 1, exp := 1000, token_type := "access", jti := 11 })) := by
  refine ⟨rfl, rfl, by decide, by decide⟩

/-- Appending one well-shaped write pair preserves the per-execution write
invariant. -/
theorem writes_forward_ok_append (ws : List (JobStatus × JobStatus))
    (p : JobStatus × JobStatus) (hws : writes_forward_ok ws = true)
    (hp : (p.1 == JobStatus.running &&
        (p.2 == JobStatus.succeeded || p.2 == JobStatus.failed)) = true) :
    writes_forward_ok (ws ++ [p]) = true := by
  simp only [writes_forward_ok, List.all_append, List.all_cons, List.all_nil,
    Bool.and_eq_true] at *
  exact ⟨hws, hp, trivial⟩

/-- Every run of the autoretry driver only appends (running, terminal)
write pairs and leaves the record in a terminal status. -/
theorem celery_autoretry_forward (tids : Nat → String) (remote : Nat → RemoteResult) :
    ∀ (fuel attempt : Nat) (job : DetectJob) (acc : List (JobStatus × JobStatus)),
      writes_forward_ok acc = true →
      writes_forward_ok (celery_autoretry tids remote fuel attempt job acc).writes = true ∧
      ((celery_autoretry tids remote fuel attempt job acc).final.status = JobStatus.succeeded ∨
        (celery_autoretry tids remote fuel attempt job acc).final.status = JobStatus.failed) := by
  intro fuel
  induction fuel with
  | zero =>
      intro attempt job acc hacc
      cases hr : remote attempt with
      | ok iu resp =>
          refine ⟨?_, Or.inl ?_⟩
          · simp only [celery_autoretry, run_detect_task_once, hr]
            exact writes_forward_ok_append acc _ hacc (by decide)
          · simp [celery_autoretry, run_detect_task_once, hr]
      | exc msg =>
          refine ⟨?_, Or.inr ?_⟩
          · simp only [celery_autoretry, run_detect_task_once, hr]
            exact writes_forward_ok_append acc _ hacc (by decide)
          · simp [celery_autoretry, run_detect_task_once, hr]
  | succ n ih =>
      intro attempt job acc hacc
      cases hr : remote attempt with
      | ok iu resp =>
          refine ⟨?_, Or.inl ?_⟩
          · simp only [celery_autoretry, run_detect_task_once, hr, if_neg]
            simp only [Bool.false_eq_true, if_false]
            exact writes_forward_ok_append acc _ hacc (by decide)
          · simp [celery_autoretry, run_detect_task_once, hr]
      | exc msg =>
          have hacc2 : writes_forward_ok (acc ++ [(JobStatus.running, JobStatus.failed)]) = true :=
            writes_forward_ok_append acc _ hacc (by decide)
          have hrec := ih (attempt + 1)
            { job with
                status := JobStatus.failed
                celery_task_id := tids attempt
                error_message := msg }
            (acc ++ [(JobStatus.running, JobStatus.failed)]) hacc2
          simpa only [celery_autoretry, run_detect_task_once, hr, if_true] using hrec

/-- C3 (counterexample): with the remote call failing every attempt, the
observed status sequence of the record is queued, then four repetitions of
(running, failed) — the Celery autoretry re-runs the task body, which
unconditionally writes `running` (`deepfake/tasks.py:21-24`) over the
terminal `failed` written by the previous attempt.  Indices 2 and 3 of the
trace exhibit a failed-to-running write, so the sequence is not a
subsequence of queued, running, terminal. -/
theorem c3_counterexample_retry_rewrites_terminal_status :
    job_status_trace create_detect_job_task_config (fun _ => "task-1") always_fail_remote =
      [JobStatus.queued, JobStatus.running, JobStatus.failed, JobStatus.running,
        JobStatus.failed, JobStatus.running, JobStatus.failed, JobStatus.running,
        JobStatus.failed] ∧
    (job_status_trace create_detect_job_task_config (fun _ => "task-1") always_fail_remote)[2]? =
      some JobStatus.failed ∧
    (job_status_trace create_detect_job_task_config (fun _ => "task-1") always_fail_remote)[3]? =
      some JobStatus.running := by
  decide

/-- C3 (amended): the record is created `queued`, every worker execution
writes `running` followed by exactly one terminal status, and the record
ends in a terminal status; across retries or re-deliveries a terminal
status is rewritten to `running` at the start of the next execution, so
the forward-only property holds within each execution but not across
them. -/
theorem c3_forward_within_execution (cfg : CeleryTaskConfig) (tids : Nat → String)
    (remote : Nat → RemoteResult) (job : DetectJob) :
    writes_forward_ok (run_detect_job cfg tids remote job).writes = true ∧
    ((run_detect_job cfg tids remote job).final.status = JobStatus.succeeded ∨
      (run_detect_job cfg tids remote job).final.status = JobStatus.failed) ∧
    (job_status_trace cfg tids remote).head? = some JobStatus.queued := by
  refine ⟨?_, ?_, rfl⟩
  · exact (celery_autoretry_forward tids remote cfg.max_retries 0 job [] rfl).1
  · exact (celery_autoretry_forward tids remote cfg.max_retries 0 job [] rfl).2

/-- Witness for the amended C3 at a concrete always-failing run. -/
theorem c3_forward_within_execution_witness :
    writes_forward_ok
      (run_detect_job create_detect_job_task_config (fun _ => "task-1") always_fail_remote
        new_detect_job).writes = true :=
  (c3_forward_within_execution create_detect_job_task_config (fun _ => "task-1")
    always_fail_remote new_detect_job).1

/-- C4 (counterexample): the claim says at most 3 call attempts in total.
With `max_retries=3` Celery performs the initial attempt plus up to three
retries, i.e. 4 attempts: on an always-failing remote call the worker
makes exactly 4 attempts, not at most 3 (the terminal state is `failed`
with a non-empty message, which part of the claim the code satisfies). -/
theorem c4_counterexample_four_attempts :
    (run_detect_job create_detect_job_task_config (fun _ => "task-1") always_fail_remote
      new_detect_job).attempts = 4 ∧
    ¬ ((run_detect_job create_detect_job_task_config (fun _ => "task-1") always_fail_remote
      new_detect_job).attempts ≤ 3) := by
  decide

/-- C4 (amended): with the remote call raising a transient error with a
non-empty message on every attempt, the worker makes exactly
`max_retries + 1 = 4` call attempts (with `retry_backoff` and
`retry_jitter` configured between attempts), after which the
terminal status is `failed` and `error_message` is the non-empty
stringified last error. -/
theorem c4_retry_bound (tids : Nat → String) (msgs : Nat → String) (job : DetectJob)
    (h : ∀ n, msgs n ≠ "") :
    (run_detect_job create_detect_job_task_config tids (fun n => .exc (msgs n)) job).attempts =
      create_detect_job_task_config.max_retries + 1 ∧
    (run_detect_job create_detect_job_task_config tids (fun n => .exc (msgs n)) job).attempts =
      4 ∧
    (run_detect_job create_detect_job_task_config tids (fun n => .exc (msgs n)) job).final.status =
      JobStatus.failed ∧
    (run_detect_job create_detect_job_task_config tids
      (fun n => .exc (msgs n)) job).final.error_message = msgs 3 ∧
    (run_detect_job create_detect_job_task_config tids
      (fun n => .exc (msgs n)) job).final.error_message ≠ "" ∧
    create_detect_job_task_config.retry_backoff = true ∧
    create_detect_job_task_config.retry_jitter = true := by
  refine ⟨?_, ?_, ?_, ?_, ?_, rfl, rfl⟩ <;>
    simp [run_detect_job, create_detect_job_task_config, celery_autoretry,
      run_detect_task_once, h 3]

/-- Witness for the amended C4 at a concrete always-failing run. -/
theorem c4_retry_bound_witness :
    (run_detect_job create_detect_job_task_config (fun _ => "task-1")
      (fun n => .exc ((fun _ => "Resemble error 500: boom") n)) new_detect_job).attempts = 4 :=
  (c4_retry_bound (fun _ => "task-1") (fun _ => "Resemble error 500: boom") new_detect_job
    (by intro n; show ("Resemble error 500: boom" : String) ≠ ""; decide)).2.1

/-- C7: a job owned by one user is invisible to another: the detail
endpoint returns the same `Job not found.` response for a job id owned by
another user as for an id matching no job at all.  The uuid hypotheses say the
looked-up uuid belongs (only) to jobs of `u1` — uuids are the
primary key — and that `missing_id` matches no row. -/
theorem c7_ownership_isolation (db : List DetectJobRow) (u1 u2 : Nat) (j : DetectJobRow)
    (missing_id : Nat) (hne : u1 ≠ u2) (hj : j ∈ db) (hown : j.user = u1)
    (huuid : ∀ k ∈ db, k.uuid = j.uuid → k.user = u1)
    (hmiss : ∀ k ∈ db, k.uuid ≠ missing_id) :
    job_detail_get db u2 j.uuid = .not_found "Job not found." ∧
    job_detail_get db u2 j.uuid = job_detail_get db u2 missing_id := by
  have h1 : db.find? (fun k => k.uuid == j.uuid && k.user == u2) = none := by
    rw [List.find?_eq_none]
    intro k hk
    simp only [Bool.and_eq_true, beq_iff_eq]
    rintro ⟨hu, hv⟩
    exact hne ((huuid k hk hu).symm.trans hv)
  have h2 : db.find? (fun k => k.uuid == missing_id && k.user == u2) = none := by
    rw [List.find?_eq_none]
    intro k hk
    simp only [Bool.and_eq_true, beq_iff_eq]
    rintro ⟨hu, _⟩
    exact hmiss k hk hu
  exact ⟨by simp [job_detail_get, h1], by simp [job_detail_get, h1, h2]⟩

/-- Witness for C7: a one-row table owned by user 1, queried by user 2
with the id of the row and with a fresh id. -/
theorem c7_ownership_isolation_witness :
    job_detail_get [{ uuid := 10, user := 1, record := new_detect_job }] 2 10 =
      .not_found "Job not found." ∧
    job_detail_get [{ uuid := 10, user := 1, record := new_detect_job }] 2 10 =
      job_detail_get [{ uuid := 10, user := 1, record := new_detect_job }] 2 99 :=
  c7_ownership_isolation [{ uuid := 10, user := 1, record := new_detect_job }] 1 2
    { uuid := 10, user := 1, record := new_detect_job } 99
    (by decide) (by simp) rfl (by decide) (by decide)

/-- C8: `_parse_json_or_raise` fails with an error carrying the response
status and body whenever the status is at least 400 — including when the
body parsed as JSON — and returns the parsed body when the status is
below 400; when the body is unparseable and the status is an HTTP error
(4xx/5xx), `raise_for_status` raises the error carrying the status and the
raw body. -/
theorem c8_remote_error_contract (r : RResponse) :
    (∀ d, r.json = some d → 400 ≤ r.status_code →
        parse_json_or_raise r = .error (.http_error r.status_code d)) ∧
    (∀ d, r.json = some d → r.status_code < 400 →
        parse_json_or_raise r = .ok d) ∧
    (r.json = none → 400 ≤ r.status_code → r.status_code < 600 →
        parse_json_or_raise r = .error (.http_error r.status_code r.text)) := by
  refine ⟨?_, ?_, ?_⟩
  · intro d hj h4
    simp [parse_json_or_raise, hj, h4]
  · intro d hj hlt
    simp [parse_json_or_raise, hj, Nat.not_le.mpr hlt]
  · intro hj h4 h6
    simp [parse_json_or_raise, hj, raise_for_status, h4, h6]

/-- Witness for C8 at concrete responses: a 422 with a JSON error body
raises the error carrying 422 and the body, and a 200 with a JSON body
returns it. -/
theorem c8_remote_error_contract_witness :
    parse_json_or_raise { status_code := 422, text := "raw", json := some "errdoc" } =
      .error (.http_error 422 "errdoc") ∧
    parse_json_or_raise { status_code := 200, text := "raw", json := some "okdoc" } =
      .ok "okdoc" :=
  ⟨(c8_remote_error_contract _).1 "errdoc" rfl (by decide),
   (c8_remote_error_contract _).2.1 "okdoc" rfl (by decide)⟩

/-- C9: the claim says polling a background-task handle that no longer
exists in the scheduler returns status `unknown`.  It does not: Celery
reports any unknown task id as `PENDING`, and the view returns
`res.status.lower()`, so the response status is `pending`. -/
theorem c9_counterexample_gone_handle_is_pending :
    (voice_design_job_status_get { tasks := [] } "gone-task").status = "pending" ∧
    "pending" ≠ "unknown" := by
  refine ⟨by decide, by decide⟩

/-- C9 (amended): when the polled handle is absent from the scheduler
backend, the status endpoint returns `pending` (never `unknown`). -/
theorem c9_gone_handle_status (be : CeleryBackend) (job_id : String)
    (h : be.tasks.find? (fun t => t.1 == job_id) = none) :
    voice_design_job_status_get be job_id =
      { success := true, status := "pending", result := none, error := none } := by
  have hl : py_lower "PENDING" = "pending" := by decide
  simp [voice_design_job_status_get, async_result_state, async_result_repr, h, celery_state_name,
    hl]

/-- Witness for the amended C9 at a concrete empty backend. -/
theorem c9_gone_handle_status_witness :
    voice_design_job_status_get { tasks := [] } "gone-task" =
      { success := true, status := "pending", result := none, error := none } :=
  c9_gone_handle_status { tasks := [] } "gone-task" rfl

/-- C2 (counterexample): the claim says two concurrent rotate calls on the
same refresh token never both succeed.  The blacklist check
(`RefreshToken.__init__`) and the blacklist write (`refresh.blacklist()`)
inside `CookieTokenRefreshSerializer.validate` are separate database
operations with no lock, so the interleaving check-A, check-B, write-A,
write-B lets both calls pass the check before either writes: both
succeed. -/
theorem c2_counterexample_concurrent_double_rotation :
    (race_run 7 [true, false, true, false]).a = RotPhase.succeeded ∧
    (race_run 7 [true, false, true, false]).b = RotPhase.succeeded := by
  decide

/-- C2 (amended): when the two rotate calls are serialized — one completes
before the other starts — exactly one succeeds and the other fails with
`Token is blacklisted` (the `TokenRevoked` failure): shown both on the
interleaving model with a serialized schedule and on the full
cookie-refresh path run twice in sequence with the same refresh cookie.
The code does not serialize concurrent rotations, so the guarantee holds
only per serialized execution. -/
theorem c2_rotation_single_use_serialized (jti : Nat) (env : JwtEnv)
    (cookies : List (String × String)) (raw : String) (c : TokenClaims) (f1 f2 : Nat)
    (hcookie : cookies.lookup jwt_refresh_cookie_name = some raw)
    (hraw : raw ≠ "")
    (hdec : env.decode raw = some c)
    (htype : c.token_type = "refresh")
    (hexp : env.now < c.exp) :
    (race_run jti [true, true, false, false]).a = RotPhase.succeeded ∧
    (race_run jti [true, true, false, false]).b = RotPhase.rejected ∧
    cookie_token_refresh env [] cookies f1 =
      ([c.jti],
        .ok ({ user_id := c.user_id
             , exp := env.now + access_token_lifetime_seconds
             , token_type := "access"
             , jti := f1 + 1 },
             { user_id := c.user_id
             , exp := env.now + refresh_token_lifetime_seconds
             , token_type := "refresh"
             , jti := f1 })) ∧
    cookie_token_refresh env [c.jti] cookies f2 =
      ([c.jti], .error (.token_error "Token is blacklisted")) := by
  refine ⟨?_, ?_, ?_, ?_⟩
  · simp [race_run, race_step, rot_step]
  · simp [race_run, race_step, rot_step]
  · simp [cookie_token_refresh, opt_nonempty, hcookie, hraw, hdec, htype, hexp]
  · simp [cookie_token_refresh, opt_nonempty, hcookie, hraw, hdec, htype, hexp]

/-- Witness for the amended C2 at a concrete refresh cookie: the first
rotation succeeds and blacklists jti 42; replaying the same cookie fails
with `Token is blacklisted`. -/
theorem c2_rotation_single_use_serialized_witness :
    (race_run 7 [true, true, false, false]).a = RotPhase.succeeded ∧
    (race_run 7 [true, true, false, false]).b = RotPhase.rejected ∧
    cookie_token_refresh
      { decode := fun s =>
          if s = "refresh-tok" then
            some { user_id := some 1, exp := 500, token_type := "refresh", jti := 42 }
          else none
      , now := 0
      , users := [(1, true)] } [] [("refresh_token", "refresh-tok")] 100 =
      ([42],
        .ok ({ user_id := some 1, exp := access_token_lifetime_seconds
             , token_type := "access", jti := 101 },
             { user_id := some 1, exp := refresh_token_lifetime_seconds
             , token_type := "refresh", jti := 100 })) ∧
    cookie_token_refresh
      { decode := fun s =>
          if s = "refresh-tok" then
            some { user_id := some 1, exp := 500, token_type := "refresh", jti := 42 }
          else none
      , now := 0
      , users := [(1, true)] } [42] [("refresh_token", "refresh-tok")] 200 =
      ([42], .error (.token_error "Token is blacklisted")) :=
  c2_rotation_single_use_serialized 7
    { decode := fun s =>
        if s = "refresh-tok" then
          some { user_id := some 1, exp := 500, token_type := "refresh", jti := 42 }
        else none
    , now := 0
    , users := [(1, true)] }
    [("refresh_token", "refresh-tok")] "refresh-tok"
    { user_id := some 1, exp := 500, token_type := "refresh", jti := 42 } 100 200
    rfl (by decide) rfl rfl (by decide)

/-- C5 (counterexample): the claim says credential extraction never raises
and yields not-found on malformed header material in both contexts.  In
the HTTP context the header fallback is the simplejwt `get_raw_token`, which
raises `AuthenticationFailed` for a recognized Bearer scheme that does not
have exactly two space-delimited parts, aborting the request instead of
degrading. -/
theorem c5_counterexample_malformed_bearer_header_raises :
    authenticate demo_env
      { method := "GET", cookies := [], authorization := some "Bearer a b", csrf := .pass } =
      .error (.authentication_failed
        "Authorization header must contain two space-delimited values") := by
  decide

/-- C5 (amended): credential preference holds as claimed — an HTTP request
with a cookie token authenticates from the cookie, independently of any
`Authorization` header; without a cookie it falls through to header
authentication; the WebSocket extractor prefers the cookie and uses the
bearer header exactly when no cookie is present and header auth is enabled
for the channel, never raising.  Only the never-raises clause fails, and
only for the HTTP bearer fallback on a malformed two-plus-part header. -/
theorem c5_credential_preference (env : JwtEnv) (req : HttpRequest) (cfg : WsConfig)
    (scope : WsScope) (raw : String) :
    (cookie_raw_token req = some raw →
      authenticate env req = authenticate env { req with authorization := none }) ∧
    (cookie_raw_token req = none →
      authenticate env req = jwt_header_authenticate env req) ∧
    (opt_nonempty (ws_get_cookie_value scope jwt_access_cookie_name) = some raw →
      ws_extract cfg scope = (some raw, some "cookie")) ∧
    (opt_nonempty (ws_get_cookie_value scope jwt_access_cookie_name) = none →
      cfg.ws_allow_auth_header = true →
      ws_extract cfg scope =
        (opt_nonempty (ws_get_bearer_token scope),
          if (opt_nonempty (ws_get_bearer_token scope)).isSome then some "authorization"
          else none)) := by
  refine ⟨?_, ?_, ?_, ?_⟩
  · intro h
    have h2 : cookie_raw_token { req with authorization := none } = some raw := h
    simp only [authenticate]
    rw [h, h2]
    rfl
  · intro h
    simp only [authenticate]
    rw [h]
  · intro h
    simp only [ws_extract]
    rw [h]
    simp
  · intro h hallow
    simp only [ws_extract]
    rw [h, hallow]
    simp

/-- Witness for the amended C5 at concrete requests and scopes. -/
theorem c5_credential_preference_witness :
    authenticate demo_env
        { method := "GET", cookies := [("access_token", "tok-alice")]
        , authorization := some "Bearer other", csrf := .pass } =
      authenticate demo_env
        { method := "GET", cookies := [("access_token", "tok-alice")]
        , authorization := none, csrf := .pass } ∧
    authenticate demo_env
        { method := "GET", cookies := [], authorization := some "Bearer tok-alice"
        , csrf := .pass } =
      jwt_header_authenticate demo_env
        { method := "GET", cookies := [], authorization := some "Bearer tok-alice"
        , csrf := .pass } ∧
    ws_extract { ws_allow_auth_header := true }
        { cookies := [("access_token", "tok-alice")]
        , authorization := some "Bearer tok-bob" } =
      (some "tok-alice", some "cookie") ∧
    ws_extract { ws_allow_auth_header := true }
        { cookies := [], authorization := some "Bearer tok-bob" } =
      (some "tok-bob", some "authorization") :=
  ⟨(c5_credential_preference demo_env
      { method := "GET", cookies := [("access_token", "tok-alice")]
      , authorization := some "Bearer other", csrf := .pass }
      { ws_allow_auth_header := true }
      { cookies := [("access_token", "tok-alice")], authorization := some "Bearer tok-bob" }
      "tok-alice").1 rfl,
   (c5_credential_preference demo_env
      { method := "GET", cookies := [], authorization := some "Bearer tok-alice"
      , csrf := .pass }
      { ws_allow_auth_header := true }
      { cookies := [("access_token", "tok-alice")], authorization := some "Bearer tok-bob" }
      "tok-alice").2.1 rfl,
   (c5_credential_preference demo_env
      { method := "GET", cookies := [("access_token", "tok-alice")]
      , authorization := some "Bearer other", csrf := .pass }
      { ws_allow_auth_header := true }
      { cookies := [("access_token", "tok-alice")], authorization := some "Bearer tok-bob" }
      "tok-alice").2.2.1 rfl,
   Eq.trans
     ((c5_credential_preference demo_env
        { method := "GET", cookies := [("access_token", "tok-alice")]
        , authorization := some "Bearer other", csrf := .pass }
        { ws_allow_auth_header := true }
        { cookies := [], authorization := some "Bearer tok-bob" }
        "tok-alice").2.2.2 rfl rfl)
     (by decide)⟩

/-- Reason codes stored by the WebSocket middleware on a failed
handshake. -/
def ws_failure_reasons : List String :=
  ["missing_token", "invalid_or_expired", "missing_user_id", "user_not_found"]

/-- Checker: a middleware outcome is either an authenticated user with no
error code, or anonymous with one of the four failure reason codes. -/
def ws_outcome_wellformed (s : WsAuthScope) : Bool :=
  match s.user, s.jwt_error with
  | .user _, none => true
  | .anonymous, some r => ws_failure_reasons.contains r
  | _, _ => false

/-- Every WebSocket handshake outcome is authenticated or anonymous with
one of the four reason codes; the middleware never aborts. -/
theorem ws_authenticate_wellformed (cfg : WsConfig) (env : JwtEnv) (scope : WsScope) :
    ws_outcome_wellformed (ws_authenticate cfg env scope) = true := by
  unfold ws_authenticate
  rcases hx : ws_extract cfg scope with ⟨raw, src⟩
  cases raw with
  | none => rfl
  | some t =>
      dsimp only
      cases hv : ws_access_token env t with
      | none => rfl
      | some c =>
          dsimp only
          cases hu : c.user_id with
          | none => rfl
          | some uid =>
              dsimp only
              by_cases hz : uid = 0
              · rw [if_pos hz]
                rfl
              · rw [if_neg hz]
                cases hl : env.users.lookup uid with
                | none => rfl
                | some b => rfl

/-- C6 (amended): in the WebSocket handshake every failure degrades to an
anonymous identity plus one of the reason codes (missing_token,
invalid_or_expired, missing_user_id, user_not_found) without aborting; in
the HTTP context only the no-credential case degrades — `authenticate`
returns no identity and no reason code — while an invalid or expired
cookie token raises `InvalidToken` (an `AuthenticationFailed`), aborting
the request pipeline with 401, so CSRF failure is not the only aborting
path. -/
theorem c6_failure_degradation (cfg : WsConfig) (env : JwtEnv) (scope : WsScope)
    (req : HttpRequest) (raw : String) :
    ws_outcome_wellformed (ws_authenticate cfg env scope) = true ∧
    (cookie_raw_token req = none → req.authorization = none →
      authenticate env req = .ok none) ∧
    (cookie_raw_token req = some raw → enforce_csrf req = .ok () → env.decode raw = none →
      authenticate env req = .error (.invalid_token "Given token not valid for any token type")) := by
  refine ⟨ws_authenticate_wellformed cfg env scope, ?_, ?_⟩
  · intro h1 h2
    simp only [authenticate]
    rw [h1]
    simp only [jwt_header_authenticate]
    rw [h2]
  · intro h1 hc hd
    simp only [authenticate]
    rw [h1, hc]
    simp only [get_validated_token]
    rw [hd]

/-- C6 (counterexample): an HTTP request whose access cookie holds an
invalid token makes `get_validated_token` raise `InvalidToken`, aborting
the pipeline with 401 — not the claimed anonymous identity with reason
`invalid_or_expired`, and not a CSRF rejection. -/
theorem c6_counterexample_http_invalid_token_aborts :
    authenticate demo_env
      { method := "GET", cookies := [("access_token", "garbage")], authorization := none
      , csrf := .pass } =
      .error (.invalid_token "Given token not valid for any token type") := by
  decide

/-- Witness for the amended C6 at concrete inputs: an empty WebSocket
handshake degrades to anonymous/missing_token, an HTTP request with no
credential yields no identity without error, and a garbage cookie token
aborts. -/
theorem c6_failure_degradation_witness :
    ws_outcome_wellformed
      (ws_authenticate { ws_allow_auth_header := false } demo_env
        { cookies := [], authorization := none }) = true ∧
    authenticate demo_env
      { method := "GET", cookies := [], authorization := none, csrf := .pass } = .ok none ∧
    authenticate demo_env
      { method := "GET", cookies := [("access_token", "garbage")], authorization := none
      , csrf := .pass } =
      .error (.invalid_token "Given token not valid for any token type") :=
  ⟨(c6_failure_degradation { ws_allow_auth_header := false } demo_env
      { cookies := [], authorization := none }
      { method := "GET", cookies := [], authorization := none, csrf := .pass } "garbage").1,
   (c6_failure_degradation { ws_allow_auth_header := false } demo_env
      { cookies := [], authorization := none }
      { method := "GET", cookies := [], authorization := none, csrf := .pass } "garbage").2.1
      rfl rfl,
   (c6_failure_degradation { ws_allow_auth_header := false } demo_env
      { cookies := [], authorization := none }
      { method := "GET", cookies := [("access_token", "garbage")], authorization := none
      , csrf := .pass } "garbage").2.2 rfl rfl rfl⟩

/-- C10: both the login and the refresh endpoint set the access-token
cookie with `max_age = 600` seconds, while `SIMPLE_JWT` issues the access
token inside it with a 5-day (432000-second) lifetime, so the browser
stops sending the cookie long before the embedded token expires. -/
theorem c10_access_cookie_max_age (st : CookieSettings) :
    (login_access_cookie st).max_age = some 600 ∧
    (refresh_access_cookie st).max_age = some 600 ∧
    access_token_lifetime_seconds = 432000 ∧
    600 < access_token_lifetime_seconds := by
  refine ⟨rfl, rfl, rfl, ?_⟩
  decide

end STCVoice
